import Mathlib

/-!
Verification of the entity configuration and validation model of the
`hass-mqtt` discovery crates (Home Assistant MQTT discovery descriptors).

The `Sensor` and `Switch` structs and `Switch`'s `Validate` impl are
translated from `crates/discovery/src/entity/{sensor,switch}.rs`.
Primitive value types (`Topic`, `Payload`, `Template`, enums), the shared
`Entity` attribute bag and its invalidity kinds live in modules of the same
crate that are not part of the visible sources; those are modelled from the
specification and marked as such in their doc comments.  The `semval`
validation context is an external dependency whose accumulation semantics
are embedded directly as list concatenation.

Serialization is modelled as a JSON-like object: an association list of
field names to `Value`s, following the serde attributes present in the
visible sources (`default`, `skip_serializing_if`, `flatten`).
-/

namespace HassMqtt

/-- Modelled from the spec: `Topic` is a newtype over a (possibly borrowed)
string identifying an MQTT channel; its module is not among the visible
sources.  Borrowed vs owned is semantically invisible, so a plain `String`
carries the value. -/
structure Topic where
  raw : String
deriving DecidableEq, Repr

/-- Modelled from the spec: `Payload` is an opaque string value compared
literally against message bodies. -/
structure Payload where
  raw : String
deriving DecidableEq, Repr

/-- Modelled from the spec: `Template` is an opaque templating-expression
string; this core gives it only presence/absence semantics. -/
structure Template where
  raw : String
deriving DecidableEq, Repr

/-- Modelled from the spec: `Icon` is a plain string newtype. -/
structure Icon where
  raw : String
deriving DecidableEq, Repr

/-- Modelled from the spec: `Name` is a plain string newtype. -/
structure Name where
  raw : String
deriving DecidableEq, Repr

/-- Modelled from the spec: `UniqueId` is a plain string newtype. -/
structure UniqueId where
  raw : String
deriving DecidableEq, Repr

/-- Modelled from the spec: the invalidity kind reported for a malformed
`Topic` (the one shape rule the spec states is non-emptiness). -/
inductive TopicInvalidity where
  | empty
deriving DecidableEq, Repr

/-- Modelled from the spec: the invalidity kind reported for a malformed
`Payload`; per the spec's validation properties an empty payload string is
invalid. -/
inductive PayloadInvalidity where
  | empty
deriving DecidableEq, Repr

/-- Modelled from the spec: invalidity kind for a `Template`; the spec says
template syntax is never validated here, so no value is ever reported. -/
inductive TemplateInvalidity where
  | malformed
deriving DecidableEq, Repr

/-- Modelled from the spec: invalidity of a `Device` that carries neither
identifiers nor connections. -/
inductive DeviceInvalidity where
  | missingIdentity
deriving DecidableEq, Repr

/-- Modelled from the spec: a topic must not be empty; `validateList` is the
list of violations the `Validate` impl reports. -/
def Topic.validateList (t : Topic) : List TopicInvalidity :=
  if t.raw = "" then [.empty] else []

/-- Modelled from the spec: an empty payload string is invalid. -/
def Payload.validateList (p : Payload) : List PayloadInvalidity :=
  if p.raw = "" then [.empty] else []

/-- Modelled from the spec: templates are opaque, only presence matters, so
validation never reports anything. -/
def Template.validateList (_ : Template) : List TemplateInvalidity := []

/-- Modelled from the spec: closed availability-mode enumeration with
default `latest`. -/
inductive AvailabilityMode where
  | all
  | any
  | latest
deriving DecidableEq, Repr

/-- Modelled from the spec: closed device-class enumeration with an explicit
"none" variant used for default-omission on encode.  The concrete non-none
variants stand in for the schema's class names. -/
inductive DeviceClass where
  | none
  | battery
  | temperature
deriving DecidableEq, Repr

def DeviceClass.is_none : DeviceClass → Bool
  | .none => true
  | _ => false

/-- Modelled from the spec: closed entity-category enumeration with a
"none" variant. -/
inductive EntityCategory where
  | none
  | config
  | diagnostic
deriving DecidableEq, Repr

def EntityCategory.is_none : EntityCategory → Bool
  | .none => true
  | _ => false

/-- Modelled from the spec: closed state-class enumeration with a "none"
variant. -/
inductive StateClass where
  | none
  | measurement
  | total
deriving DecidableEq, Repr

def StateClass.is_none : StateClass → Bool
  | .none => true
  | _ => false

/-- Modelled from the spec: QoS is restricted to the closed set {0,1,2};
level 0 is the default. -/
inductive MqttQoS where
  | atMostOnce
  | atLeastOnce
  | exactlyOnce
deriving DecidableEq, Repr

def MqttQoS.is_default : MqttQoS → Bool
  | .atMostOnce => true
  | _ => false

def MqttQoS.toNat : MqttQoS → Nat
  | .atMostOnce => 0
  | .atLeastOnce => 1
  | .exactlyOnce => 2

/-- `NonZeroU32` of the source modelled as a positive natural number
(the 2^32 bound plays no role in any claim). -/
def NonZeroU32 := {n : Nat // n ≠ 0}

instance : DecidableEq NonZeroU32 := fun a b =>
  decidable_of_iff (a.val = b.val) Subtype.ext_iff.symm

/-- Modelled from the spec: one availability descriptor — a topic, an
optional value template, and optional available/not-available payloads. -/
structure Availability where
  topic : Topic
  value_template : Option Template
  payload_available : Option String
  payload_not_available : Option String
deriving DecidableEq, Repr

/-- Modelled from the spec: device-registry linkage; at least one of
`identifiers` or `connections` must be present when a device is supplied. -/
structure Device where
  identifiers : List String
  connections : List String
deriving DecidableEq, Repr

/-- Modelled from the spec: a supplied device lacking both identifiers and
connections is invalid. -/
def Device.validateList (d : Device) : List DeviceInvalidity :=
  if d.identifiers = [] ∧ d.connections = [] then [.missingIdentity] else []

/-- Modelled from the spec: the shared `Entity` attribute bag embedded by
every platform entity (availability list/topic/template/mode, device link,
entity category, icon, name, unique id); its module is not among the
visible sources. -/
structure Entity where
  availability : List Availability
  availability_mode : AvailabilityMode
  availability_template : Option Template
  availability_topic : Option Topic
  device : Option Device
  entity_category : EntityCategory
  icon : Option Icon
  name : Option Name
  unique_id : Option UniqueId
deriving DecidableEq, Repr

def Entity.default : Entity :=
  { availability := []
    availability_mode := .latest
    availability_template := Option.none
    availability_topic := Option.none
    device := Option.none
    entity_category := .none
    icon := Option.none
    name := Option.none
    unique_id := Option.none }

/-- `EntityInvalidity` from the sources' `entity` module (not visible):
tagged violation kinds — wrapped primitive kinds plus the entity-level
availability conflict and device sub-violations, as the spec describes. -/
inductive EntityInvalidity where
  | topic : TopicInvalidity → EntityInvalidity
  | payload : PayloadInvalidity → EntityInvalidity
  | template : TemplateInvalidity → EntityInvalidity
  | availabilityConflict
  | device : DeviceInvalidity → EntityInvalidity
deriving DecidableEq, Repr

/-- Violations contributed by an optional field: absence is always valid;
a present value's violations are wrapped by the field's kind constructor.
This is the semantics of the crate's `validate_with_opt` extension
(modelled from the spec: absence is always valid, required-ness is enforced
by the type system). -/
def optInvalidities (o : Option α) (v : α → List γ) (f : γ → β) : List β :=
  match o with
  | Option.none => []
  | Option.some a => (v a).map f

/-- Violations contributed by each element of a list in order. -/
def concatMap (f : α → List β) : List α → List β
  | [] => []
  | a :: l => f a ++ concatMap f l

/-- Modelled from the spec: validation of the shared entity attributes as
one unit — the availability list and the single availability topic are
mutually exclusive (an `availabilityConflict`), each availability entry's
topic and the single availability topic must be well-formed, and a supplied
device must identify itself. -/
def Entity.validateList (e : Entity) : List EntityInvalidity :=
  (if e.availability ≠ [] ∧ e.availability_topic.isSome then
      [EntityInvalidity.availabilityConflict]
    else [])
  ++ concatMap (fun a => (Topic.validateList a.topic).map EntityInvalidity.topic) e.availability
  ++ optInvalidities e.availability_topic Topic.validateList EntityInvalidity.topic
  ++ optInvalidities e.availability_template Template.validateList EntityInvalidity.template
  ++ optInvalidities e.device Device.validateList EntityInvalidity.device

/-- The `semval` validation context: an accumulator of typed invalidities.
`validateWith` merges a sub-validation's violations under a wrapping
function; the final state is the ordered list of everything accumulated. -/
structure Context (I : Type) where
  invalidities : List I

def Context.new {I : Type} : Context I := ⟨[]⟩

def Context.validateWith (c : Context I) (sub : List γ) (f : γ → I) : Context I :=
  ⟨c.invalidities ++ sub.map f⟩

def Context.validateWithOpt (c : Context I) (o : Option α) (v : α → List γ)
    (f : γ → I) : Context I :=
  ⟨c.invalidities ++ optInvalidities o v f⟩

/-- `semval`'s `Context::into<Result>`: empty accumulator means valid. -/
def Context.intoResult (c : Context I) : Except (List I) Unit :=
  match c.invalidities with
  | [] => .ok ()
  | l => .error l

/-- The `Switch` struct of `crates/discovery/src/entity/switch.rs`, field
for field (the embedded shared entity is serde-`flatten`ed). -/
structure Switch where
  entity : Entity
  command_topic : Option Topic
  device_class : Option DeviceClass
  optimistic : Option Bool
  payload_off : Option Payload
  payload_on : Option Payload
  retain : Option Bool
  state_off : Option Payload
  state_on : Option Payload
  state_topic : Option Topic
  value_template : Option Template
deriving Repr

/-- `#[derive(Default)]` on `Switch`: every field at its default. -/
def Switch.default : Switch :=
  { entity := Entity.default
    command_topic := Option.none
    device_class := Option.none
    optimistic := Option.none
    payload_off := Option.none
    payload_on := Option.none
    retain := Option.none
    state_off := Option.none
    state_on := Option.none
    state_topic := Option.none
    value_template := Option.none }

/-- `Switch::validate` of `switch.rs`, expressed as the final accumulator
state: the embedded entity first, then each optional platform field in the
order of the source (`command_topic`, `payload_on`, `payload_off`,
`state_topic`, `state_on`, `state_off`, `value_template`). -/
def Switch.validateCtx (sw : Switch) : List EntityInvalidity :=
  ((((((((Context.new).validateWith sw.entity.validateList id
    ).validateWithOpt sw.command_topic Topic.validateList EntityInvalidity.topic
    ).validateWithOpt sw.payload_on Payload.validateList EntityInvalidity.payload
    ).validateWithOpt sw.payload_off Payload.validateList EntityInvalidity.payload
    ).validateWithOpt sw.state_topic Topic.validateList EntityInvalidity.topic
    ).validateWithOpt sw.state_on Payload.validateList EntityInvalidity.payload
    ).validateWithOpt sw.state_off Payload.validateList EntityInvalidity.payload
    ).validateWithOpt sw.value_template Template.validateList EntityInvalidity.template
    |>.invalidities

/-- `Switch::validate`'s result type as in `semval`: `Ok(())` iff the
accumulator ended empty. -/
def Switch.validate (sw : Switch) : Except (List EntityInvalidity) Unit :=
  Context.intoResult ⟨sw.validateCtx⟩

/-- The `Sensor` struct of `crates/discovery/src/entity/sensor.rs`, field
for field in declaration order; `state_topic` is the one mandatory field. -/
structure Sensor where
  availability : List Availability
  availability_mode : AvailabilityMode
  availability_template : Option Template
  availability_topic : Option Topic
  device : Option Device
  device_class : DeviceClass
  enabled_by_default : Option Bool
  entity_category : EntityCategory
  expire_after : Option NonZeroU32
  force_update : Option Bool
  icon : Option Icon
  json_attributes_template : Option Template
  json_attributes_topic : Option Topic
  last_reset_value_template : Option Template
  name : Option Name
  object_id : Option String
  payload_available : Option String
  payload_not_available : Option String
  qos : MqttQoS
  state_class : StateClass
  state_topic : Topic
  unique_id : Option UniqueId
  unit_of_measurement : Option String
  value_template : Option Template

/-- `#[derive(Default)]` on `Sensor`: every field at its default; the
mandatory `state_topic` defaults to the empty topic (the default of a
borrowed string is the empty string). -/
def Sensor.default : Sensor :=
  { availability := []
    availability_mode := .latest
    availability_template := Option.none
    availability_topic := Option.none
    device := Option.none
    device_class := .none
    enabled_by_default := Option.none
    entity_category := .none
    expire_after := Option.none
    force_update := Option.none
    icon := Option.none
    json_attributes_template := Option.none
    json_attributes_topic := Option.none
    last_reset_value_template := Option.none
    name := Option.none
    object_id := Option.none
    payload_available := Option.none
    payload_not_available := Option.none
    qos := .atMostOnce
    state_class := .none
    state_topic := ⟨""⟩
    unique_id := Option.none
    unit_of_measurement := Option.none
    value_template := Option.none }

/-- Modelled from the spec: the visible sources contain no `Validate` impl
for `Sensor`; the spec says every entity's shared attributes are validated
as one unit under the same rules as the shared `Entity` bag, with the
mandatory `state_topic` and the optional topics/templates validated
independently. -/
def Sensor.validateList (s : Sensor) : List EntityInvalidity :=
  (if s.availability ≠ [] ∧ s.availability_topic.isSome then
      [EntityInvalidity.availabilityConflict]
    else [])
  ++ concatMap (fun a => (Topic.validateList a.topic).map EntityInvalidity.topic) s.availability
  ++ optInvalidities s.availability_topic Topic.validateList EntityInvalidity.topic
  ++ optInvalidities s.availability_template Template.validateList EntityInvalidity.template
  ++ optInvalidities s.device Device.validateList EntityInvalidity.device
  ++ (Topic.validateList s.state_topic).map EntityInvalidity.topic
  ++ optInvalidities s.json_attributes_topic Topic.validateList EntityInvalidity.topic
  ++ optInvalidities s.json_attributes_template Template.validateList EntityInvalidity.template
  ++ optInvalidities s.last_reset_value_template Template.validateList EntityInvalidity.template
  ++ optInvalidities s.value_template Template.validateList EntityInvalidity.template

/-! ## Serialization model

A wire payload is a JSON-like object: an association list of field names to
values.  Encoding follows the serde attributes of the visible structs
(`skip_serializing_if` omits absent/default fields, `flatten` splices the
embedded entity's fields); decoding reconstructs absent fields to their
defaults, ignores unknown fields, and fails with the offending field's name
when a present value violates its primitive's shape. -/

inductive Value where
  | str : String → Value
  | bool : Bool → Value
  | nat : Nat → Value
  | arr : List Value → Value
  | obj : List (String × Value) → Value

/-- The singleton field list of a present optional value, empty when
absent (serde's `skip_serializing_if`). -/
def optPair (n : String) (o : Option Value) : List (String × Value) :=
  match o with
  | Option.none => []
  | Option.some v => [(n, v)]

/-- First value stored under a key in an encoded object. -/
def findVal : List (String × Value) → String → Option Value
  | [], _ => Option.none
  | (k, v) :: rest, n => if k = n then some v else findVal rest n

def Topic.encode (t : Topic) : Value := .str t.raw

def Payload.encode (p : Payload) : Value := .str p.raw

def Template.encode (t : Template) : Value := .str t.raw

def Icon.encode (i : Icon) : Value := .str i.raw

def Name.encode (n : Name) : Value := .str n.raw

def UniqueId.encode (u : UniqueId) : Value := .str u.raw

def AvailabilityMode.token : AvailabilityMode → String
  | .all => "all"
  | .any => "any"
  | .latest => "latest"

def DeviceClass.token : DeviceClass → String
  | .none => "none"
  | .battery => "battery"
  | .temperature => "temperature"

def EntityCategory.token : EntityCategory → String
  | .none => "none"
  | .config => "config"
  | .diagnostic => "diagnostic"

def StateClass.token : StateClass → String
  | .none => "none"
  | .measurement => "measurement"
  | .total => "total"

def Availability.encode (a : Availability) : Value :=
  .obj (optPair "topic" (some a.topic.encode)
    ++ optPair "value_template" (a.value_template.map Template.encode)
    ++ optPair "payload_available" (a.payload_available.map Value.str)
    ++ optPair "payload_not_available" (a.payload_not_available.map Value.str))

def Device.encode (d : Device) : Value :=
  .obj (optPair "identifiers"
      (if d.identifiers.isEmpty then Option.none
        else some (.arr (d.identifiers.map Value.str)))
    ++ optPair "connections"
      (if d.connections.isEmpty then Option.none
        else some (.arr (d.connections.map Value.str))))

/-- Encoding of the shared entity attribute bag (spliced into each platform
entity's object by serde's `flatten`): absent options, empty sequences and
default-valued enums are omitted. -/
def Entity.encode (e : Entity) : List (String × Value) :=
  optPair "availability"
      (if e.availability.isEmpty then Option.none
        else some (.arr (e.availability.map Availability.encode)))
  ++ optPair "availability_mode"
      (if e.availability_mode = .latest then Option.none
        else some (.str e.availability_mode.token))
  ++ optPair "availability_template" (e.availability_template.map Template.encode)
  ++ optPair "availability_topic" (e.availability_topic.map Topic.encode)
  ++ optPair "device" (e.device.map Device.encode)
  ++ optPair "entity_category"
      (if e.entity_category = .none then Option.none
        else some (.str e.entity_category.token))
  ++ optPair "icon" (e.icon.map Icon.encode)
  ++ optPair "name" (e.name.map Name.encode)
  ++ optPair "unique_id" (e.unique_id.map UniqueId.encode)

/-- Serde encoding of `Switch`: the flattened entity's fields, then the
platform fields in declaration order, `None`s omitted. -/
def Switch.encode (sw : Switch) : List (String × Value) :=
  sw.entity.encode
  ++ optPair "command_topic" (sw.command_topic.map Topic.encode)
  ++ optPair "device_class" (sw.device_class.map (fun d => .str d.token))
  ++ optPair "optimistic" (sw.optimistic.map Value.bool)
  ++ optPair "payload_off" (sw.payload_off.map Payload.encode)
  ++ optPair "payload_on" (sw.payload_on.map Payload.encode)
  ++ optPair "retain" (sw.retain.map Value.bool)
  ++ optPair "state_off" (sw.state_off.map Payload.encode)
  ++ optPair "state_on" (sw.state_on.map Payload.encode)
  ++ optPair "state_topic" (sw.state_topic.map Topic.encode)
  ++ optPair "value_template" (sw.value_template.map Template.encode)

/-- First half of `Sensor`'s serde encoding (fields in declaration order up
to `json_attributes_template`); split in two only to keep the compiled code
small. -/
def sensorEncodeA (s : Sensor) : List (String × Value) :=
  optPair "availability"
      (if s.availability.isEmpty then Option.none
        else some (.arr (s.availability.map Availability.encode)))
  ++ optPair "availability_mode"
      (if s.availability_mode = .latest then Option.none
        else some (.str s.availability_mode.token))
  ++ optPair "availability_template" (s.availability_template.map Template.encode)
  ++ optPair "availability_topic" (s.availability_topic.map Topic.encode)
  ++ optPair "device" (s.device.map Device.encode)
  ++ optPair "device_class"
      (if s.device_class = .none then Option.none
        else some (.str s.device_class.token))
  ++ optPair "enabled_by_default" (s.enabled_by_default.map Value.bool)
  ++ optPair "entity_category"
      (if s.entity_category = .none then Option.none
        else some (.str s.entity_category.token))
  ++ optPair "expire_after" (s.expire_after.map (fun n => .nat n.val))
  ++ optPair "force_update" (s.force_update.map Value.bool)
  ++ optPair "icon" (s.icon.map Icon.encode)
  ++ optPair "json_attributes_template" (s.json_attributes_template.map Template.encode)

/-- Second half of `Sensor`'s serde encoding (from `json_attributes_topic`
on); the mandatory `state_topic` is always present. -/
def sensorEncodeB (s : Sensor) : List (String × Value) :=
  optPair "json_attributes_topic" (s.json_attributes_topic.map Topic.encode)
  ++ optPair "last_reset_value_template" (s.last_reset_value_template.map Template.encode)
  ++ optPair "name" (s.name.map Name.encode)
  ++ optPair "object_id" (s.object_id.map Value.str)
  ++ optPair "payload_available" (s.payload_available.map Value.str)
  ++ optPair "payload_not_available" (s.payload_not_available.map Value.str)
  ++ optPair "qos"
      (if s.qos = .atMostOnce then Option.none else some (.nat s.qos.toNat))
  ++ optPair "state_class"
      (if s.state_class = .none then Option.none
        else some (.str s.state_class.token))
  ++ optPair "state_topic" (some s.state_topic.encode)
  ++ optPair "unique_id" (s.unique_id.map UniqueId.encode)
  ++ optPair "unit_of_measurement" (s.unit_of_measurement.map Value.str)
  ++ optPair "value_template" (s.value_template.map Template.encode)

/-- Serde encoding of `Sensor`: fields in declaration order; absent options,
the empty availability list, default enums and default QoS are omitted; the
mandatory `state_topic` is always present. -/
def Sensor.encode (s : Sensor) : List (String × Value) :=
  sensorEncodeA s ++ sensorEncodeB s

/-! ## Deserialization

Field parsers take the value found under the field's name (or `none` when
the field is absent) and the field's name, which tags any shape error. -/

/-- An optional topic: absent is `None`; a present value must be a
non-empty string (the topic shape rule checked on decode). -/
def parseOptTopic (o : Option Value) (n : String) : Except String (Option Topic) :=
  match o with
  | Option.none => .ok Option.none
  | Option.some (.str s) => if s = "" then .error n else .ok (some ⟨s⟩)
  | Option.some _ => .error n

/-- A mandatory topic: absence itself is a decode error naming the field. -/
def parseReqTopic (o : Option Value) (n : String) : Except String Topic :=
  match o with
  | Option.none => .error n
  | Option.some (.str s) => if s = "" then .error n else .ok ⟨s⟩
  | Option.some _ => .error n

/-- An optional payload: a present value must be a non-empty string. -/
def parseOptPayload (o : Option Value) (n : String) : Except String (Option Payload) :=
  match o with
  | Option.none => .ok Option.none
  | Option.some (.str s) => if s = "" then .error n else .ok (some ⟨s⟩)
  | Option.some _ => .error n

/-- An optional template: any string is accepted (templates are opaque). -/
def parseOptTemplate (o : Option Value) (n : String) : Except String (Option Template) :=
  match o with
  | Option.none => .ok Option.none
  | Option.some (.str s) => .ok (some ⟨s⟩)
  | Option.some _ => .error n

def parseOptIcon (o : Option Value) (n : String) : Except String (Option Icon) :=
  match o with
  | Option.none => .ok Option.none
  | Option.some (.str s) => .ok (some ⟨s⟩)
  | Option.some _ => .error n

def parseOptName (o : Option Value) (n : String) : Except String (Option Name) :=
  match o with
  | Option.none => .ok Option.none
  | Option.some (.str s) => .ok (some ⟨s⟩)
  | Option.some _ => .error n

def parseOptUniqueId (o : Option Value) (n : String) : Except String (Option UniqueId) :=
  match o with
  | Option.none => .ok Option.none
  | Option.some (.str s) => .ok (some ⟨s⟩)
  | Option.some _ => .error n

def parseOptString (o : Option Value) (n : String) : Except String (Option String) :=
  match o with
  | Option.none => .ok Option.none
  | Option.some (.str s) => .ok (some s)
  | Option.some _ => .error n

def parseOptBool (o : Option Value) (n : String) : Except String (Option Bool) :=
  match o with
  | Option.none => .ok Option.none
  | Option.some (.bool b) => .ok (some b)
  | Option.some _ => .error n

/-- `NonZeroU32`: a present value must be a non-zero integer. -/
def parseOptNonZero (o : Option Value) (n : String) :
    Except String (Option NonZeroU32) :=
  match o with
  | Option.none => .ok Option.none
  | Option.some (.nat k) =>
    if h : k = 0 then .error n else .ok (some ⟨k, h⟩)
  | Option.some _ => .error n

/-- QoS: absent means level 0; a present value must be one of the closed
set {0,1,2}, anything else is a shape error naming the field — the value is
never clamped or defaulted. -/
def parseQoS (o : Option Value) (n : String) : Except String MqttQoS :=
  match o with
  | Option.none => .ok .atMostOnce
  | Option.some (.nat 0) => .ok .atMostOnce
  | Option.some (.nat 1) => .ok .atLeastOnce
  | Option.some (.nat 2) => .ok .exactlyOnce
  | Option.some _ => .error n

/-- Availability mode: absent reconstructs the default `latest`. -/
def parseMode (o : Option Value) (n : String) : Except String AvailabilityMode :=
  match o with
  | Option.none => .ok .latest
  | Option.some (.str "all") => .ok .all
  | Option.some (.str "any") => .ok .any
  | Option.some (.str "latest") => .ok .latest
  | Option.some _ => .error n

/-- Device class on `Sensor` (non-optional with a "none" default): an
absent field reconstructs the "none" variant. -/
def parseDeviceClass (o : Option Value) (n : String) : Except String DeviceClass :=
  match o with
  | Option.none => .ok .none
  | Option.some (.str "none") => .ok .none
  | Option.some (.str "battery") => .ok .battery
  | Option.some (.str "temperature") => .ok .temperature
  | Option.some _ => .error n

/-- Device class on `Switch` (`Option<DeviceClass>`): absent is `None`. -/
def parseOptDeviceClass (o : Option Value) (n : String) :
    Except String (Option DeviceClass) :=
  match o with
  | Option.none => .ok Option.none
  | Option.some (.str "none") => .ok (some .none)
  | Option.some (.str "battery") => .ok (some .battery)
  | Option.some (.str "temperature") => .ok (some .temperature)
  | Option.some _ => .error n

def parseCategory (o : Option Value) (n : String) : Except String EntityCategory :=
  match o with
  | Option.none => .ok .none
  | Option.some (.str "config") => .ok .config
  | Option.some (.str "diagnostic") => .ok .diagnostic
  | Option.some _ => .error n

def parseStateClass (o : Option Value) (n : String) : Except String StateClass :=
  match o with
  | Option.none => .ok .none
  | Option.some (.str "measurement") => .ok .measurement
  | Option.some (.str "total") => .ok .total
  | Option.some _ => .error n

def parseStrList (n : String) : List Value → Except String (List String)
  | [] => .ok []
  | .str s :: rest => do
    let tail ← parseStrList n rest
    pure (s :: tail)
  | _ :: _ => .error n

/-- A list-valued string field: absent reconstructs the empty list. -/
def parseStrArr (o : Option Value) (n : String) : Except String (List String) :=
  match o with
  | Option.none => .ok []
  | Option.some (.arr vs) => parseStrList n vs
  | Option.some _ => .error n

def parseAvailability (v : Value) : Except String Availability :=
  match v with
  | .obj fs => do
    let t ← parseReqTopic (findVal fs "topic") "topic"
    let vt ← parseOptTemplate (findVal fs "value_template") "value_template"
    let pa ← parseOptString (findVal fs "payload_available") "payload_available"
    let pna ← parseOptString (findVal fs "payload_not_available") "payload_not_available"
    pure ⟨t, vt, pa, pna⟩
  | _ => .error "availability"

def parseAvailabilityList : List Value → Except String (List Availability)
  | [] => .ok []
  | v :: rest => do
    let a ← parseAvailability v
    let tail ← parseAvailabilityList rest
    pure (a :: tail)

/-- The availability list: absent reconstructs the empty list. -/
def parseAvailabilityField (o : Option Value) : Except String (List Availability) :=
  match o with
  | Option.none => .ok []
  | Option.some (.arr vs) => parseAvailabilityList vs
  | Option.some _ => .error "availability"

def parseDevice (o : Option Value) : Except String (Option Device) :=
  match o with
  | Option.none => .ok Option.none
  | Option.some (.obj fs) => do
    let ids ← parseStrArr (findVal fs "identifiers") "identifiers"
    let conns ← parseStrArr (findVal fs "connections") "connections"
    pure (some ⟨ids, conns⟩)
  | Option.some _ => .error "device"

/-- Decoding of the shared entity attributes out of the full object (serde's
`flatten` hands the embedded struct the same map). -/
def decodeEntityFields (m : List (String × Value)) : Except String Entity := do
  let av ← parseAvailabilityField (findVal m "availability")
  let mode ← parseMode (findVal m "availability_mode") "availability_mode"
  let avt ← parseOptTemplate (findVal m "availability_template") "availability_template"
  let avtop ← parseOptTopic (findVal m "availability_topic") "availability_topic"
  let dev ← parseDevice (findVal m "device")
  let cat ← parseCategory (findVal m "entity_category") "entity_category"
  let ic ← parseOptIcon (findVal m "icon") "icon"
  let nm ← parseOptName (findVal m "name") "name"
  let uid ← parseOptUniqueId (findVal m "unique_id") "unique_id"
  pure ⟨av, mode, avt, avtop, dev, cat, ic, nm, uid⟩

/-- Serde decoding of `Switch`: every recognized field is looked up by name
(absent optionals become `None`), unknown fields are ignored. -/
def Switch.decode (m : List (String × Value)) : Except String Switch := do
  let e ← decodeEntityFields m
  let ct ← parseOptTopic (findVal m "command_topic") "command_topic"
  let dc ← parseOptDeviceClass (findVal m "device_class") "device_class"
  let opt ← parseOptBool (findVal m "optimistic") "optimistic"
  let poff ← parseOptPayload (findVal m "payload_off") "payload_off"
  let pon ← parseOptPayload (findVal m "payload_on") "payload_on"
  let ret ← parseOptBool (findVal m "retain") "retain"
  let soff ← parseOptPayload (findVal m "state_off") "state_off"
  let son ← parseOptPayload (findVal m "state_on") "state_on"
  let stp ← parseOptTopic (findVal m "state_topic") "state_topic"
  let vt ← parseOptTemplate (findVal m "value_template") "value_template"
  pure ⟨e, ct, dc, opt, poff, pon, ret, soff, son, stp, vt⟩

/-- Serde decoding of `Sensor`: fields in declaration order; the mandatory
`state_topic` must be present; unknown fields are ignored. -/
def Sensor.decode (m : List (String × Value)) : Except String Sensor := do
  let av ← parseAvailabilityField (findVal m "availability")
  let mode ← parseMode (findVal m "availability_mode") "availability_mode"
  let avt ← parseOptTemplate (findVal m "availability_template") "availability_template"
  let avtop ← parseOptTopic (findVal m "availability_topic") "availability_topic"
  let dev ← parseDevice (findVal m "device")
  let dc ← parseDeviceClass (findVal m "device_class") "device_class"
  let ebd ← parseOptBool (findVal m "enabled_by_default") "enabled_by_default"
  let cat ← parseCategory (findVal m "entity_category") "entity_category"
  let exp ← parseOptNonZero (findVal m "expire_after") "expire_after"
  let fu ← parseOptBool (findVal m "force_update") "force_update"
  let ic ← parseOptIcon (findVal m "icon") "icon"
  let jat ← parseOptTemplate (findVal m "json_attributes_template") "json_attributes_template"
  let jatop ← parseOptTopic (findVal m "json_attributes_topic") "json_attributes_topic"
  let lrvt ← parseOptTemplate (findVal m "last_reset_value_template") "last_reset_value_template"
  let nm ← parseOptName (findVal m "name") "name"
  let oid ← parseOptString (findVal m "object_id") "object_id"
  let pa ← parseOptString (findVal m "payload_available") "payload_available"
  let pna ← parseOptString (findVal m "payload_not_available") "payload_not_available"
  let q ← parseQoS (findVal m "qos") "qos"
  let sc ← parseStateClass (findVal m "state_class") "state_class"
  let st ← parseReqTopic (findVal m "state_topic") "state_topic"
  let uid ← parseOptUniqueId (findVal m "unique_id") "unique_id"
  let uom ← parseOptString (findVal m "unit_of_measurement") "unit_of_measurement"
  let vt ← parseOptTemplate (findVal m "value_template") "value_template"
  pure ⟨av, mode, avt, avtop, dev, dc, ebd, cat, exp, fu, ic, jat, jatop, lrvt,
    nm, oid, pa, pna, q, sc, st, uid, uom, vt⟩

/-- Left-biased choice of two lookup results. -/
def orN : Option Value → Option Value → Option Value
  | Option.some v, _ => some v
  | Option.none, x => x

/-- The field names `Sensor`'s decoder recognizes. -/
def sensorKeys : List String :=
  ["availability", "availability_mode", "availability_template",
   "availability_topic", "device", "device_class", "enabled_by_default",
   "entity_category", "expire_after", "force_update", "icon",
   "json_attributes_template", "json_attributes_topic",
   "last_reset_value_template", "name", "object_id", "payload_available",
   "payload_not_available", "qos", "state_class", "state_topic", "unique_id",
   "unit_of_measurement", "value_template"]

/-- The field names `Switch`'s decoder recognizes (the flattened entity's
fields plus the platform fields). -/
def switchKeys : List String :=
  ["availability", "availability_mode", "availability_template",
   "availability_topic", "device", "entity_category", "icon", "name",
   "unique_id", "command_topic", "device_class", "optimistic", "payload_off",
   "payload_on", "retain", "state_off", "state_on", "state_topic",
   "value_template"]

def swC1 : Switch :=
  { Switch.default with command_topic := some ⟨""⟩, state_on := some ⟨""⟩ }

/-- The cross-field rule Claim C2 asserts, written from the claim's own
words (weakened even: "alone" and well-formedness are dropped, which only
makes the asserted requirement easier to satisfy): either a `command_topic`
with optimistic mode, or an on/off payload pair with a `state_topic`. -/
def switchSpecAlternatives (sw : Switch) : Prop :=
  (sw.command_topic.isSome = true ∧ sw.optimistic = some true)
  ∨ (sw.payload_on.isSome = true ∧ sw.payload_off.isSome = true
      ∧ sw.state_topic.isSome = true)

def swC3 : Switch :=
  { Switch.default with
      entity :=
        { Entity.default with
            availability := [⟨⟨"avail/t"⟩, Option.none, Option.none, Option.none⟩]
            availability_topic := some ⟨"avail/t"⟩ } }

def sC3 : Sensor :=
  { Sensor.default with
      availability := [⟨⟨"avail/t"⟩, Option.none, Option.none, Option.none⟩]
      availability_topic := some ⟨"avail/t"⟩
      state_topic := ⟨"home/s"⟩ }

def swC5a : Switch := { Switch.default with command_topic := some ⟨""⟩ }

def swC5b : Switch := { Switch.default with state_topic := some ⟨""⟩ }

def swC4w : Switch :=
  { Switch.default with
      entity :=
        { Entity.default with
            availability := [⟨⟨"tele/sw1/LWT"⟩, Option.none, some "Online", some "Offline"⟩] }
      command_topic := some ⟨"cmnd/sw1/POWER"⟩
      payload_off := some ⟨"OFF"⟩
      payload_on := some ⟨"ON"⟩
      state_topic := some ⟨"stat/sw1/POWER"⟩ }

/-! ## Counting helpers for violation lists -/

theorem count_conflict_map_eq_zero (f : γ → EntityInvalidity)
    (hf : ∀ j, f j ≠ EntityInvalidity.availabilityConflict) (l : List γ) :
    (l.map f).count EntityInvalidity.availabilityConflict = 0 := by
  induction l with
  | nil => rfl
  | cons a t ih => simp [List.count_cons, beq_iff_eq, hf a, ih]

theorem count_conflict_optInv_eq_zero (o : Option α) (v : α → List γ)
    (f : γ → EntityInvalidity)
    (hf : ∀ j, f j ≠ EntityInvalidity.availabilityConflict) :
    (optInvalidities o v f).count EntityInvalidity.availabilityConflict = 0 := by
  cases o with
  | none => rfl
  | some a => exact count_conflict_map_eq_zero f hf _

theorem count_conflict_concatMap_eq_zero (g : α → List γ) (f : γ → EntityInvalidity)
    (hf : ∀ j, f j ≠ EntityInvalidity.availabilityConflict) (l : List α) :
    (concatMap (fun a => ((g a).map f)) l).count EntityInvalidity.availabilityConflict = 0 := by
  induction l with
  | nil => rfl
  | cons a t ih =>
    simp only [concatMap, List.count_append, ih, Nat.add_zero]
    exact count_conflict_map_eq_zero f hf _

theorem count_conflict_opt_topic (o : Option α) (v : α → List TopicInvalidity) :
    (optInvalidities o v EntityInvalidity.topic).count
      EntityInvalidity.availabilityConflict = 0 :=
  count_conflict_optInv_eq_zero o v _ (fun j => by simp)

theorem count_conflict_opt_payload (o : Option α) (v : α → List PayloadInvalidity) :
    (optInvalidities o v EntityInvalidity.payload).count
      EntityInvalidity.availabilityConflict = 0 :=
  count_conflict_optInv_eq_zero o v _ (fun j => by simp)

theorem count_conflict_opt_template (o : Option α) (v : α → List TemplateInvalidity) :
    (optInvalidities o v EntityInvalidity.template).count
      EntityInvalidity.availabilityConflict = 0 :=
  count_conflict_optInv_eq_zero o v _ (fun j => by simp)

theorem count_conflict_opt_device (o : Option α) (v : α → List DeviceInvalidity) :
    (optInvalidities o v EntityInvalidity.device).count
      EntityInvalidity.availabilityConflict = 0 :=
  count_conflict_optInv_eq_zero o v _ (fun j => by simp)

theorem count_conflict_topic_map (l : List TopicInvalidity) :
    (l.map EntityInvalidity.topic).count EntityInvalidity.availabilityConflict = 0 :=
  count_conflict_map_eq_zero _ (fun j => by simp) l

theorem count_conflict_concat_topic (g : α → List TopicInvalidity) (l : List α) :
    (concatMap (fun a => ((g a).map EntityInvalidity.topic)) l).count
      EntityInvalidity.availabilityConflict = 0 :=
  count_conflict_concatMap_eq_zero g _ (fun j => by simp) l

/-! ## Claim theorems about validation -/

/-- Claim C1: a `Switch` whose `command_topic` is the (invalid) empty topic
and whose `state_on` is the (invalid) empty payload simultaneously gets both
violations — the bad topic and the bad payload — reported together in the
one result of `validate()`; validation accumulates and never stops at the
first violation. -/
theorem switch_validate_accumulates_all_violations :
    swC1.validate =
      .error [EntityInvalidity.topic .empty, EntityInvalidity.payload .empty] := by
  rfl

/-- Claim C2 counterexample: the all-default `Switch` satisfies neither of
the claimed alternatives, yet `validate()` accepts it — `Switch::validate`
enforces no such cross-field relation. -/
theorem switch_validate_no_cross_field_rule_cx :
    Switch.default.validate = .ok () ∧ ¬ switchSpecAlternatives Switch.default :=
  ⟨rfl, by simp [switchSpecAlternatives, Switch.default]⟩

/-- Claim C2 (amended): `Switch::validate()` enforces no cross-field
relation; each optional platform field is validated independently only when
present, so with every platform field absent validation reduces to the
embedded entity's validation and a `Switch` satisfying neither of the
claimed alternatives still passes. -/
theorem switch_validate_no_cross_field_relation (e : Entity) :
    ({ Switch.default with entity := e } : Switch).validateCtx = e.validateList := by
  simp [Switch.validateCtx, Switch.default, Context.new, Context.validateWith,
    Context.validateWithOpt, optInvalidities, List.map_id]

/-- Claim C3: whenever the availability list is non-empty and
`availability_topic` is also set, validation reports exactly one
`AvailabilityConflict` violation — not zero and not more than one — for the
`Switch` (whose `validate()` embeds the shared entity validation) and for
the `Sensor` (validation modelled from the spec). -/
theorem availability_conflict_exactly_one :
    (∀ sw : Switch, sw.entity.availability ≠ [] →
      sw.entity.availability_topic.isSome = true →
      sw.validateCtx.count EntityInvalidity.availabilityConflict = 1) ∧
    (∀ s : Sensor, s.availability ≠ [] →
      s.availability_topic.isSome = true →
      (s.validateList).count EntityInvalidity.availabilityConflict = 1) := by
  constructor
  · intro sw h1 h2
    simp only [Switch.validateCtx, Context.new, Context.validateWith,
      Context.validateWithOpt, List.map_id, List.nil_append, List.count_append,
      Entity.validateList]
    rw [if_pos ⟨h1, h2⟩]
    simp [count_conflict_opt_topic, count_conflict_opt_payload,
      count_conflict_opt_template, count_conflict_opt_device,
      count_conflict_concat_topic, List.count_cons]
  · intro s h1 h2
    simp only [Sensor.validateList, List.count_append]
    rw [if_pos ⟨h1, h2⟩]
    simp [count_conflict_opt_topic, count_conflict_opt_payload,
      count_conflict_opt_template, count_conflict_opt_device,
      count_conflict_concat_topic, count_conflict_topic_map, List.count_cons]

/-- Claim C3 witness: a concrete `Switch` and a concrete `Sensor`, each with
one availability entry and an `availability_topic`, get exactly one
`AvailabilityConflict`. -/
theorem availability_conflict_exactly_one_witness :
    swC3.validateCtx.count EntityInvalidity.availabilityConflict = 1 ∧
    (sC3.validateList).count EntityInvalidity.availabilityConflict = 1 :=
  ⟨availability_conflict_exactly_one.1 swC3 (by decide) (by decide),
   availability_conflict_exactly_one.2 sC3 (by decide) (by decide)⟩

/-- Claim C5 counterexample: a `Switch` bad only in `command_topic` and a
`Switch` bad only in `state_topic` produce identical violation collections,
so a violation does not identify (is not keyed by) the specific field that
produced it — only the kind of primitive. -/
theorem switch_violations_not_keyed_by_field_cx :
    swC5a.validateCtx = swC5b.validateCtx ∧
    swC5a.command_topic ≠ swC5b.command_topic ∧
    swC5a.state_topic ≠ swC5b.state_topic :=
  ⟨rfl, by decide, by decide⟩

/-- Claim C5 (amended): `Switch::validate()` returns one ordered collection:
the embedded shared entity's violations first, then each platform field's
violations independently in the order the fields are checked
(`command_topic`, `payload_on`, `payload_off`, `state_topic`, `state_on`,
`state_off`, `value_template`), each violation wrapped by the kind of value
that produced it (`Topic`, `Payload` or `Template`) — not by the specific
field. -/
theorem switch_validate_ordered_by_kind (sw : Switch) :
    sw.validateCtx =
      sw.entity.validateList
      ++ optInvalidities sw.command_topic Topic.validateList EntityInvalidity.topic
      ++ optInvalidities sw.payload_on Payload.validateList EntityInvalidity.payload
      ++ optInvalidities sw.payload_off Payload.validateList EntityInvalidity.payload
      ++ optInvalidities sw.state_topic Topic.validateList EntityInvalidity.topic
      ++ optInvalidities sw.state_on Payload.validateList EntityInvalidity.payload
      ++ optInvalidities sw.state_off Payload.validateList EntityInvalidity.payload
      ++ optInvalidities sw.value_template Template.validateList EntityInvalidity.template := by
  simp [Switch.validateCtx, Context.new, Context.validateWith, Context.validateWithOpt,
    List.map_id, List.append_assoc]

/-- Claim C9: `Switch::validate()` never reads `optimistic`, `retain` or
`device_class` — two switches differing only in those three fields validate
to the same violations in the same order, and the same overall result. -/
theorem switch_validate_ignores_optimistic_retain_device_class
    (sw : Switch) (o r : Option Bool) (d : Option DeviceClass) :
    ({ sw with optimistic := o, retain := r, device_class := d } : Switch).validateCtx
        = sw.validateCtx ∧
    ({ sw with optimistic := o, retain := r, device_class := d } : Switch).validate
        = sw.validate :=
  ⟨rfl, rfl⟩

/-- Claim C10: `Sensor` implements `Default`; the default value's mandatory
`state_topic` is the default (empty) topic — a sensor with an effectively
empty state topic is constructible, even though the empty topic violates
the topic shape rule. -/
theorem sensor_default_has_empty_state_topic :
    Sensor.default.state_topic = ⟨""⟩ ∧
    Topic.validateList Sensor.default.state_topic = [.empty] :=
  ⟨rfl, rfl⟩

/-! ## Lookup lemmas -/

theorem orN_some (v : Value) (x : Option Value) : orN (some v) x = some v := rfl

theorem orN_none (x : Option Value) : orN Option.none x = x := rfl

theorem orN_right_none (o : Option Value) : orN o Option.none = o := by
  cases o <;> rfl

theorem findVal_append (l1 l2 : List (String × Value)) (n : String) :
    findVal (l1 ++ l2) n = orN (findVal l1 n) (findVal l2 n) := by
  induction l1 with
  | nil => simp [findVal, orN_none]
  | cons p t ih =>
    obtain ⟨k, v⟩ := p
    by_cases hk : k = n
    · simp [findVal, hk, orN_some]
    · simp [findVal, hk, ih]

theorem findVal_optPair (nm : String) (o : Option Value) (k : String) :
    findVal (optPair nm o) k = if nm = k then o else Option.none := by
  cases o with
  | none => simp [optPair, findVal]
  | some v =>
    by_cases h : nm = k <;> simp [optPair, findVal, h]

theorem findVal_middle_ne (m1 m2 : List (String × Value)) (k n : String)
    (v : Value) (h : k ≠ n) :
    findVal (m1 ++ (k, v) :: m2) n = findVal (m1 ++ m2) n := by
  induction m1 with
  | nil => simp [findVal, h]
  | cons p t ih =>
    obtain ⟨a, b⟩ := p
    by_cases ha : a = n <;> simp [findVal, ha, ih]

theorem okBind (a : α) (f : α → Except String β) :
    (Except.ok a >>= f) = f a := rfl

theorem exceptBind_ok (x : Except String α) (f : α → Except String β) (b : β) :
    (x >>= f = Except.ok b) ↔ ∃ a, x = .ok a ∧ f a = .ok b := by
  cases x <;> simp [Bind.bind, Except.bind]

/-! ## Claim theorems about serialization -/

/-- Claim C8: decoding a `Sensor` payload whose `qos` field carries the
value 5 — outside the closed set {0,1,2} — fails with a decode error naming
the `qos` field; the value is not clamped or defaulted. -/
theorem sensor_decode_qos_out_of_range_fails :
    Sensor.decode [("state_topic", .str "home/t"), ("qos", .nat 5)]
      = .error "qos" := by
  rfl

theorem sensor_decode_congr (m m2 : List (String × Value))
    (h : ∀ n, n ∈ sensorKeys → findVal m n = findVal m2 n) :
    Sensor.decode m = Sensor.decode m2 := by
  simp only [Sensor.decode,
    h "availability" (by simp [sensorKeys]),
    h "availability_mode" (by simp [sensorKeys]),
    h "availability_template" (by simp [sensorKeys]),
    h "availability_topic" (by simp [sensorKeys]),
    h "device" (by simp [sensorKeys]),
    h "device_class" (by simp [sensorKeys]),
    h "enabled_by_default" (by simp [sensorKeys]),
    h "entity_category" (by simp [sensorKeys]),
    h "expire_after" (by simp [sensorKeys]),
    h "force_update" (by simp [sensorKeys]),
    h "icon" (by simp [sensorKeys]),
    h "json_attributes_template" (by simp [sensorKeys]),
    h "json_attributes_topic" (by simp [sensorKeys]),
    h "last_reset_value_template" (by simp [sensorKeys]),
    h "name" (by simp [sensorKeys]),
    h "object_id" (by simp [sensorKeys]),
    h "payload_available" (by simp [sensorKeys]),
    h "payload_not_available" (by simp [sensorKeys]),
    h "qos" (by simp [sensorKeys]),
    h "state_class" (by simp [sensorKeys]),
    h "state_topic" (by simp [sensorKeys]),
    h "unique_id" (by simp [sensorKeys]),
    h "unit_of_measurement" (by simp [sensorKeys]),
    h "value_template" (by simp [sensorKeys])]

theorem switch_decode_congr (m m2 : List (String × Value))
    (h : ∀ n, n ∈ switchKeys → findVal m n = findVal m2 n) :
    Switch.decode m = Switch.decode m2 := by
  simp only [Switch.decode, decodeEntityFields,
    h "availability" (by simp [switchKeys]),
    h "availability_mode" (by simp [switchKeys]),
    h "availability_template" (by simp [switchKeys]),
    h "availability_topic" (by simp [switchKeys]),
    h "device" (by simp [switchKeys]),
    h "entity_category" (by simp [switchKeys]),
    h "icon" (by simp [switchKeys]),
    h "name" (by simp [switchKeys]),
    h "unique_id" (by simp [switchKeys]),
    h "command_topic" (by simp [switchKeys]),
    h "device_class" (by simp [switchKeys]),
    h "optimistic" (by simp [switchKeys]),
    h "payload_off" (by simp [switchKeys]),
    h "payload_on" (by simp [switchKeys]),
    h "retain" (by simp [switchKeys]),
    h "state_off" (by simp [switchKeys]),
    h "state_on" (by simp [switchKeys]),
    h "state_topic" (by simp [switchKeys]),
    h "value_template" (by simp [switchKeys])]

/-- Claim C7: decoding a payload containing an extra field whose name the
decoder does not recognize succeeds exactly like decoding the payload with
that field removed — the unknown field is ignored — for `Sensor` and for
`Switch`. -/
theorem decode_ignores_unknown_field :
    (∀ (m1 m2 : List (String × Value)) (k : String) (v : Value),
      k ∉ sensorKeys →
      Sensor.decode (m1 ++ (k, v) :: m2) = Sensor.decode (m1 ++ m2)) ∧
    (∀ (m1 m2 : List (String × Value)) (k : String) (v : Value),
      k ∉ switchKeys →
      Switch.decode (m1 ++ (k, v) :: m2) = Switch.decode (m1 ++ m2)) := by
  constructor
  · intro m1 m2 k v hk
    apply sensor_decode_congr
    intro n hn
    exact findVal_middle_ne m1 m2 k n v (fun he => hk (by rw [he]; exact hn))
  · intro m1 m2 k v hk
    apply switch_decode_congr
    intro n hn
    exact findVal_middle_ne m1 m2 k n v (fun he => hk (by rw [he]; exact hn))

/-- Claim C7 witness: an unrecognized field named "mystery" is ignored by
both decoders at a concrete payload. -/
theorem decode_ignores_unknown_field_witness :
    "mystery" ∉ sensorKeys ∧ "mystery" ∉ switchKeys ∧
    Sensor.decode ([] ++ ("mystery", .bool true) :: [("state_topic", .str "home/t")])
      = Sensor.decode ([] ++ [("state_topic", .str "home/t")]) ∧
    Switch.decode ([("retain", .bool true)] ++ ("mystery", .bool true) :: [])
      = Switch.decode ([("retain", .bool true)] ++ []) :=
  ⟨by decide, by decide,
   decode_ignores_unknown_field.1 [] [("state_topic", .str "home/t")] "mystery"
     (.bool true) (by decide),
   decode_ignores_unknown_field.2 [("retain", .bool true)] [] "mystery"
     (.bool true) (by decide)⟩

set_option maxHeartbeats 800000 in
/-- Claim C6: an entity whose `device_class` sits at its "none"/absent
default encodes with no `device_class` field in the payload, and decoding a
payload lacking a `device_class` field reconstructs the "none" variant for
`Sensor` and `None` for `Switch`. -/
theorem device_class_default_omitted :
    (∀ s : Sensor, s.device_class = .none →
      findVal s.encode "device_class" = Option.none) ∧
    (∀ (m : List (String × Value)) (s : Sensor),
      findVal m "device_class" = Option.none → Sensor.decode m = .ok s →
      s.device_class = .none) ∧
    (∀ sw : Switch, sw.device_class = Option.none →
      findVal sw.encode "device_class" = Option.none) ∧
    (∀ (m : List (String × Value)) (sw : Switch),
      findVal m "device_class" = Option.none → Switch.decode m = .ok sw →
      sw.device_class = Option.none) := by
  refine ⟨?_, ?_, ?_, ?_⟩
  · intro s h
    simp only [Sensor.encode, sensorEncodeA, sensorEncodeB, findVal_append,
      findVal_optPair, orN_some, orN_none, orN_right_none, h,
      String.reduceEq, reduceIte]
  · intro m s hnone hdec
    simp only [Sensor.decode, exceptBind_ok] at hdec
    obtain ⟨av, -, mode, -, avt, -, avtop, -, dev, -, dc, hdc, ebd, -, cat, -,
      exp, -, fu, -, ic, -, jat, -, jatop, -, lrvt, -, nm, -, oid, -, pa, -,
      pna, -, q, -, sc, -, st, -, uid, -, uom, -, vt, -, hpure⟩ := hdec
    rw [hnone] at hdc
    simp only [parseDeviceClass, Except.ok.injEq] at hdc
    simp only [pure, Except.pure, Except.ok.injEq] at hpure
    subst hpure
    exact hdc.symm
  · intro sw h
    simp only [Switch.encode, Entity.encode, findVal_append, findVal_optPair,
      orN_some, orN_none, orN_right_none, h,
      String.reduceEq, reduceIte]
    rfl
  · intro m sw hnone hdec
    simp only [Switch.decode, exceptBind_ok] at hdec
    obtain ⟨e, -, ct, -, dc, hdc, opt, -, poff, -, pon, -, ret, -, soff, -,
      son, -, stp, -, vt, -, hpure⟩ := hdec
    rw [hnone] at hdc
    simp only [parseOptDeviceClass, Except.ok.injEq] at hdc
    simp only [pure, Except.pure, Except.ok.injEq] at hpure
    subst hpure
    exact hdc.symm

/-! ## Round-trip lemmas: each parser inverts its encoder -/

theorem parseOptTopic_map (o : Option Topic) (n : String)
    (h : ∀ t, o = some t → t.raw ≠ "") :
    parseOptTopic (o.map Topic.encode) n = .ok o := by
  cases o with
  | none => rfl
  | some t => simp [parseOptTopic, Topic.encode, h t rfl]

theorem parseOptPayload_map (o : Option Payload) (n : String)
    (h : ∀ p, o = some p → p.raw ≠ "") :
    parseOptPayload (o.map Payload.encode) n = .ok o := by
  cases o with
  | none => rfl
  | some p => simp [parseOptPayload, Payload.encode, h p rfl]

theorem parseOptTemplate_map (o : Option Template) (n : String) :
    parseOptTemplate (o.map Template.encode) n = .ok o := by
  cases o <;> rfl

theorem parseOptIcon_map (o : Option Icon) (n : String) :
    parseOptIcon (o.map Icon.encode) n = .ok o := by
  cases o <;> rfl

theorem parseOptName_map (o : Option Name) (n : String) :
    parseOptName (o.map Name.encode) n = .ok o := by
  cases o <;> rfl

theorem parseOptUniqueId_map (o : Option UniqueId) (n : String) :
    parseOptUniqueId (o.map UniqueId.encode) n = .ok o := by
  cases o <;> rfl

theorem parseOptString_map (o : Option String) (n : String) :
    parseOptString (o.map Value.str) n = .ok o := by
  cases o <;> rfl

theorem parseOptBool_map (o : Option Bool) (n : String) :
    parseOptBool (o.map Value.bool) n = .ok o := by
  cases o <;> rfl

theorem parseOptDeviceClass_map (o : Option DeviceClass) (n : String) :
    parseOptDeviceClass (o.map (fun d => .str d.token)) n = .ok o := by
  cases o with
  | none => rfl
  | some d => cases d <;> rfl

theorem parseMode_piece (m : AvailabilityMode) (n : String) :
    parseMode (if m = .latest then Option.none else some (.str m.token)) n
      = .ok m := by
  cases m <;> rfl

theorem parseCategory_piece (c : EntityCategory) (n : String) :
    parseCategory (if c = .none then Option.none else some (.str c.token)) n
      = .ok c := by
  cases c <;> rfl

theorem parseStrList_map (n : String) (l : List String) :
    parseStrList n (l.map Value.str) = .ok l := by
  induction l with
  | nil => rfl
  | cons s t ih =>
    rw [List.map_cons, parseStrList, ih]
    rfl

theorem parseStrArr_piece (l : List String) (n : String) :
    parseStrArr
      (if l.isEmpty then Option.none else some (.arr (l.map Value.str))) n
      = .ok l := by
  cases l with
  | nil => rfl
  | cons s t => exact parseStrList_map n (s :: t)

theorem parseDevice_map (o : Option Device) :
    parseDevice (o.map Device.encode) = .ok o := by
  cases o with
  | none => rfl
  | some d =>
    show parseDevice (some (Device.encode d)) = .ok (some d)
    rw [Device.encode, parseDevice]
    simp only [findVal_append, findVal_optPair, orN_some, orN_none,
      orN_right_none, String.reduceEq, reduceIte, parseStrArr_piece, okBind]
    rfl

theorem parseAvailability_encode (a : Availability) (h : a.topic.raw ≠ "") :
    parseAvailability a.encode = .ok a := by
  obtain ⟨⟨traw⟩, vt, pa, pna⟩ := a
  simp only [Availability.encode, parseAvailability, findVal_append,
    findVal_optPair, orN_some, orN_none, orN_right_none, String.reduceEq,
    reduceIte, Topic.encode, parseReqTopic, parseOptTemplate_map,
    parseOptString_map, okBind]
  simp only [Topic.raw] at h
  simp [h]

theorem parseAvailabilityList_encode (l : List Availability)
    (h : ∀ a ∈ l, a.topic.raw ≠ "") :
    parseAvailabilityList (l.map Availability.encode) = .ok l := by
  induction l with
  | nil => rfl
  | cons a t ih =>
    rw [List.map_cons, parseAvailabilityList,
      parseAvailability_encode a (h a (List.mem_cons_self a t)),
      ih (fun b hb => h b (List.mem_cons_of_mem a hb))]
    rfl

theorem parseAvailabilityField_piece (l : List Availability)
    (h : ∀ a ∈ l, a.topic.raw ≠ "") :
    parseAvailabilityField
      (if l.isEmpty then Option.none
        else some (.arr (l.map Availability.encode)))
      = .ok l := by
  cases l with
  | nil => rfl
  | cons a t => exact parseAvailabilityList_encode (a :: t) h

/-! ## Extraction of shape facts from a clean validation run -/

theorem optInv_topic_nil {β : Type} {f : TopicInvalidity → β} (o : Option Topic)
    (h : optInvalidities o Topic.validateList f = []) :
    ∀ t, o = some t → t.raw ≠ "" := by
  intro t ht he
  subst ht
  simp [optInvalidities, Topic.validateList, he] at h

theorem optInv_payload_nil {β : Type} {f : PayloadInvalidity → β} (o : Option Payload)
    (h : optInvalidities o Payload.validateList f = []) :
    ∀ p, o = some p → p.raw ≠ "" := by
  intro p hp he
  subst hp
  simp [optInvalidities, Payload.validateList, he] at h

theorem concatMap_nil_forall {α β : Type} (f : α → List β) (l : List α)
    (h : concatMap f l = []) : ∀ a ∈ l, f a = [] := by
  induction l with
  | nil => intro a ha; cases ha
  | cons a t ih =>
    simp only [concatMap, List.append_eq_nil] at h
    intro b hb
    rcases List.mem_cons.mp hb with hb | hb
    · exact hb ▸ h.1
    · exact ih h.2 b hb

theorem availability_topics_nonempty (l : List Availability)
    (h : concatMap
      (fun a => (Topic.validateList a.topic).map EntityInvalidity.topic) l = []) :
    ∀ a ∈ l, a.topic.raw ≠ "" := by
  intro a ha he
  have := concatMap_nil_forall _ l h a ha
  simp [Topic.validateList, he] at this

/-! ## The full decode-inverts-encode lemma for `Switch` -/

theorem decodeEntityFields_encode (sw : Switch)
    (hA : ∀ a ∈ sw.entity.availability, a.topic.raw ≠ "")
    (hT : ∀ t, sw.entity.availability_topic = some t → t.raw ≠ "") :
    decodeEntityFields (Switch.encode sw) = .ok sw.entity := by
  rw [decodeEntityFields]
  simp only [Switch.encode, Entity.encode, findVal_append, findVal_optPair,
    orN_some, orN_none, orN_right_none, String.reduceEq, reduceIte,
    parseAvailabilityField_piece _ hA, parseMode_piece,
    parseOptTemplate_map, parseOptTopic_map _ _ hT, parseDevice_map,
    parseCategory_piece, parseOptIcon_map, parseOptName_map,
    parseOptUniqueId_map, okBind]
  rfl

theorem switch_decode_encode (sw : Switch)
    (hA : ∀ a ∈ sw.entity.availability, a.topic.raw ≠ "")
    (hT : ∀ t, sw.entity.availability_topic = some t → t.raw ≠ "")
    (hCmd : ∀ t, sw.command_topic = some t → t.raw ≠ "")
    (hPon : ∀ p, sw.payload_on = some p → p.raw ≠ "")
    (hPoff : ∀ p, sw.payload_off = some p → p.raw ≠ "")
    (hSt : ∀ t, sw.state_topic = some t → t.raw ≠ "")
    (hSon : ∀ p, sw.state_on = some p → p.raw ≠ "")
    (hSoff : ∀ p, sw.state_off = some p → p.raw ≠ "") :
    Switch.decode (Switch.encode sw) = .ok sw := by
  rw [Switch.decode, decodeEntityFields_encode sw hA hT]
  simp only [okBind]
  simp only [Switch.encode, Entity.encode, findVal_append, findVal_optPair,
    orN_some, orN_none, orN_right_none, String.reduceEq, reduceIte,
    parseOptTopic_map _ _ hCmd, parseOptTopic_map _ _ hSt,
    parseOptPayload_map _ _ hPon, parseOptPayload_map _ _ hPoff,
    parseOptPayload_map _ _ hSon, parseOptPayload_map _ _ hSoff,
    parseOptDeviceClass_map, parseOptBool_map, parseOptTemplate_map, okBind]
  rfl

/-- Claim C4: for every `Switch` on which `validate()` reports no
violations, serializing, deserializing the result and serializing again
yields output identical to the first serialization —
`encode(decode(encode(x))) = encode(x)`. -/
theorem switch_encode_decode_encode_stable (sw : Switch)
    (h : sw.validate = .ok ()) :
    (Switch.decode (Switch.encode sw)).map Switch.encode
      = .ok (Switch.encode sw) := by
  have hctx : sw.validateCtx = [] := by
    rcases hl : sw.validateCtx with _ | ⟨a, t⟩
    · rfl
    · exact absurd h (by simp [Switch.validate, Context.intoResult, hl])
  have hflat : sw.entity.validateList
      ++ optInvalidities sw.command_topic Topic.validateList EntityInvalidity.topic
      ++ optInvalidities sw.payload_on Payload.validateList EntityInvalidity.payload
      ++ optInvalidities sw.payload_off Payload.validateList EntityInvalidity.payload
      ++ optInvalidities sw.state_topic Topic.validateList EntityInvalidity.topic
      ++ optInvalidities sw.state_on Payload.validateList EntityInvalidity.payload
      ++ optInvalidities sw.state_off Payload.validateList EntityInvalidity.payload
      ++ optInvalidities sw.value_template Template.validateList EntityInvalidity.template
      = [] := by
    simpa [Switch.validateCtx, Context.new, Context.validateWith,
      Context.validateWithOpt, List.map_id, List.append_assoc] using hctx
  simp only [List.append_assoc, List.append_eq_nil] at hflat
  obtain ⟨hent, hc, hpon, hpoff, hst, hson, hsoff, -⟩ := hflat
  simp only [Entity.validateList, List.append_assoc, List.append_eq_nil] at hent
  obtain ⟨-, hAv, hAt, -, -⟩ := hent
  rw [switch_decode_encode sw (availability_topics_nonempty _ hAv)
    (optInv_topic_nil _ hAt) (optInv_topic_nil _ hc)
    (optInv_payload_nil _ hpon) (optInv_payload_nil _ hpoff)
    (optInv_topic_nil _ hst) (optInv_payload_nil _ hson)
    (optInv_payload_nil _ hsoff)]
  rfl

/-- Claim C4 witness: a concrete valid `Switch` (with a command topic, both
payloads, a state topic and one availability entry) satisfies the stable
round-trip. -/
theorem switch_encode_decode_encode_stable_witness :
    swC4w.validate = .ok () ∧
    (Switch.decode (Switch.encode swC4w)).map Switch.encode
      = .ok (Switch.encode swC4w) :=
  ⟨rfl, switch_encode_decode_encode_stable swC4w rfl⟩

/-- Claim C6 witness: the default sensor and switch omit `device_class` on
encode, and concrete payloads without the field decode to the "none"
variant / `None`. -/
theorem device_class_default_omitted_witness :
    findVal Sensor.default.encode "device_class" = Option.none ∧
    ({ Sensor.default with state_topic := ⟨"home/t"⟩ } : Sensor).device_class = .none ∧
    findVal Switch.default.encode "device_class" = Option.none ∧
    Switch.default.device_class = Option.none :=
  ⟨device_class_default_omitted.1 Sensor.default rfl,
   device_class_default_omitted.2.1 [("state_topic", .str "home/t")]
     { Sensor.default with state_topic := ⟨"home/t"⟩ } rfl rfl,
   device_class_default_omitted.2.2.1 Switch.default rfl,
   device_class_default_omitted.2.2.2 [] Switch.default rfl rfl⟩

end HassMqtt
